import Mathlib

/-!
Verification of the Evennia process runner (game/runner.py).

The runner manages two long-running OS processes, Server and Portal.  We give
a shallow embedding of its pure decision logic:

* the filesystem is a map from path strings to optional file contents;
* the flag-file helpers (set_restart_mode, get_restart_mode), the pid reader
  (get_pid) and the log rotation (cycle_logfile) are translated directly;
* the reload loop of start_services is modelled as a function consuming the
  finite trace of completion events popped from the shared queue, each event
  paired with the filesystem snapshot seen when the loop processes it (the
  supervised processes may rewrite their flag files between events);
* the command-line phases of main are translated as filesystem transformers
  that also report their observable effects (printed messages, flag writes,
  log rotations).

Machine-level concerns (actual threads, the OS process table) are out of the
embedding; what is kept is exactly the branching structure of the source.
-/

/-! ## Filesystem model -/

/-- A filesystem: each path either holds a file with string contents or no
file at all. -/
def FS : Type := String → Option String

/-- Write a file (creating or truncating it), as Python open(p, "w") plus
write plus close. -/
def FS.write (fs : FS) (p v : String) : FS :=
  fun q => if q = p then some v else fs q

/-- Delete a file, as os.remove. -/
def FS.remove (fs : FS) (p : String) : FS :=
  fun q => if q = p then none else fs q

/-- Rename a file, as os.rename src dst (dst is overwritten). -/
def FS.rename (fs : FS) (src dst : String) : FS :=
  fun q => if q = dst then fs src else if q = src then none else fs q

/-- Embeds os.path.exists. -/
def os_path_exists (fs : FS) (p : String) : Bool :=
  (fs p).isSome

/-- The empty filesystem. -/
def fsEmpty : FS := fun _ => none

/-! ## Constants from the source -/

def SERVER_PIDFILE : String := "server.pid"
def PORTAL_PIDFILE : String := "portal.pid"
def SERVER_RESTART : String := "server.restart"
def PORTAL_RESTART : String := "portal.restart"
def TWISTED_BINARY : String := "twistd"

/-! ## Flag files and pid files -/

/-- Python str on a bool: str(True) is "True", str(False) is "False". -/
def str_py (b : Bool) : String := if b then "True" else "False"

/-- Embeds set_restart_mode: open the flag file for writing and write
str(flag) into it. -/
def set_restart_mode (fs : FS) (restart_file : String) (flag : Bool) : FS :=
  FS.write fs restart_file (str_py flag)

/-- Embeds get_restart_mode: if the flag file exists, read it and compare the
contents with the string "True"; otherwise return False. -/
def get_restart_mode (fs : FS) (restart_file : String) : Bool :=
  if os_path_exists fs restart_file then
    match fs restart_file with
    | some flag => flag == "True"
    | none => false
  else false

/-- Embeds get_pid: pid starts as None and is replaced by the raw file
contents when the pid file exists. -/
def get_pid (fs : FS) (pidfile : String) : Option String :=
  if os_path_exists fs pidfile then fs pidfile else none

/-- Python truthiness of the value returned by get_pid: None and the empty
string are falsy, any non-empty string is truthy. -/
def py_truthy : Option String → Bool
  | none => false
  | some s => !(s == "")

/-! ## Log rotation -/

/-- One rotation block of cycle_logfile: if the file exists, remove any
existing .old sibling and rename the file onto it. -/
def rotate_once (fs : FS) (logfile : String) : FS :=
  let logfile_old := logfile ++ ".old"
  if os_path_exists fs logfile then
    let fs1 := if os_path_exists fs logfile_old then FS.remove fs logfile_old else fs
    FS.rename fs1 logfile logfile_old
  else fs

/-- Embeds cycle_logfile: rotate the given logfile, then rebind the local
variable to settings.HTTP_LOG_FILE.strip() and rotate that file as well.
The stripped HTTP log path is passed as the first argument. -/
def cycle_logfile (http_log_file : String) (fs : FS) (logfile : String) : FS :=
  rotate_once (rotate_once fs logfile) http_log_file

/-! ## Waiter threads

In start_services, server_waiter and portal_waiter run on dedicated threads.
Each tries rc = Popen(argv).wait(); on an exception the except branch prints a
diagnostic, and then queue.put((message, rc)) is executed unconditionally.
When Popen raised, the local variable rc was never assigned, so evaluating the
queue.put argument raises UnboundLocalError inside the thread and nothing is
enqueued.  The Option Int argument is the outcome of Popen(...).wait(): some
rc when the subprocess ran and exited with code rc, none when launching it
raised an exception (missing executable, permission error). -/

/-- Outcome of one waiter thread body. -/
inductive WaiterOutcome
  | enqueued (message : String) (rc : Int)
  | unboundLocal
deriving DecidableEq

/-- Embeds server_waiter. -/
def server_waiter (wait_result : Option Int) : WaiterOutcome :=
  match wait_result with
  | some rc => .enqueued "server_stopped" rc
  | none => .unboundLocal

/-- Embeds portal_waiter. -/
def portal_waiter (wait_result : Option Int) : WaiterOutcome :=
  match wait_result with
  | some rc => .enqueued "portal_stopped" rc
  | none => .unboundLocal

/-! ## The reload loop of start_services -/

/-- Observable effects of the runner: printed messages, spawned waiter
threads, flag-file writes and log rotations. -/
inductive Effect
  | printed (msg : String)
  | spawned (waiter : String)
  | wroteFlag (path : String) (value : Bool)
  | rotatedLog (path : String)
deriving DecidableEq

def serverRestartMsg : String := "Evennia Server stopped. Restarting ..."
def portalRestartMsg : String := "Evennia Portal stopped in interactive mode. Restarting ..."

/-- Decision taken by one iteration of the reload loop for the event
(message, rc) read from the queue, against the filesystem seen at that
moment.  The two `if` statements of the loop body end in `continue`; every
other case falls through to `break`. -/
inductive StepAction
  | relaunchServer
  | relaunchPortal
  | breakLoop
deriving DecidableEq

/-- One iteration of the reload loop: relaunch only if the process stopped
cleanly (int(rc) == 0) and its restart flag file reads True. -/
def loop_step (fs : FS) (message : String) (rc : Int) : StepAction :=
  if message == "server_stopped" && rc == 0 && get_restart_mode fs SERVER_RESTART then
    .relaunchServer
  else if message == "portal_stopped" && rc == 0 && get_restart_mode fs PORTAL_RESTART then
    .relaunchPortal
  else
    .breakLoop

/-- Result of running the reload loop over a finite trace of completion
events.  activeServer and activePortal record which monitored processes are
still active at the end of the trace, in the sense of the specification: a
monitored process stays active until a completion event for it is consumed
without triggering a relaunch.  returned is true when the loop has executed
its break statement; when the trace ends without a break the loop is still
blocked on the next queue.get call. -/
structure LoopResult where
  activeServer : Bool
  activePortal : Bool
  serverRelaunches : Nat
  portalRelaunches : Nat
  effects : List Effect
  returned : Bool
deriving DecidableEq

/-- Run the reload loop of start_services over a trace of queue events; each
event carries the filesystem snapshot read by get_restart_mode when the loop
processes it.  The loop body performs no filesystem writes: a relaunch only
prints a message and spawns a fresh waiter thread. -/
def run_loop (activeS activeP : Bool) : List (FS × String × Int) → LoopResult
  | [] => ⟨activeS, activeP, 0, 0, [], false⟩
  | (fs, message, rc) :: rest =>
    match loop_step fs message rc with
    | .relaunchServer =>
      let r := run_loop activeS activeP rest
      ⟨r.activeServer, r.activePortal, r.serverRelaunches + 1, r.portalRelaunches,
        Effect.printed serverRestartMsg :: Effect.spawned "server_waiter" :: r.effects,
        r.returned⟩
    | .relaunchPortal =>
      let r := run_loop activeS activeP rest
      ⟨r.activeServer, r.activePortal, r.serverRelaunches, r.portalRelaunches + 1,
        Effect.printed portalRestartMsg :: Effect.spawned "portal_waiter" :: r.effects,
        r.returned⟩
    | .breakLoop =>
      ⟨activeS && !(message == "server_stopped"),
        activeP && !(message == "portal_stopped"), 0, 0, [], true⟩

/-- Outcome of start_services: either the early return taken when the Portal
was launched as a detached daemon and no Server thread exists, or entry into
the reload loop. -/
inductive StartOutcome
  | earlyReturn
  | looped (r : LoopResult)
deriving DecidableEq

/-- Embeds start_services.  server_on and portal_on are the truthiness of
server_argv and portal_argv.  A truthy server_argv spawns a monitored
server_waiter thread (the SERVER global becomes truthy).  A truthy
portal_argv spawns a monitored portal_waiter thread when the portal restart
flag reads True, and otherwise launches the Portal as a detached daemon and
returns before the loop when SERVER is not set.  In every remaining case the
reload loop is entered, whatever the monitored set is. -/
def start_services (fs : FS) (server_on portal_on : Bool)
    (trace : List (FS × String × Int)) : StartOutcome :=
  if portal_on && !(get_restart_mode fs PORTAL_RESTART) && !server_on then
    .earlyReturn
  else
    .looped (run_loop server_on (portal_on && get_restart_mode fs PORTAL_RESTART) trace)

/-! ## The command-line phases of main

main parses options, checks the positional argument, builds the two argv
lists, runs the Server startup section and the Portal startup section, and
finally calls start_services.  The two sections are translated as
filesystem transformers; a failing flag-file write (the only fallible call)
is an uncaught Python IOError, modelled with Except: main has no handler, so
the error aborts the run before any launch.  The posix branch is modelled
(os.name is not nt, so the trailing pidfile arguments are kept). -/

def startingServerLogMsg : String := "Starting Evennia Server (output to server logfile)."
def startingServerStdoutMsg : String := "Starting Evennia Server (output to stdout)."
def startingPortalDaemonMsg : String := "Starting Evennia Portal in Daemon mode (output to portal logfile)."
def startingPortalNonDaemonMsg : String := "Starting Evennia Portal in non-Daemon mode (output to stdout)."

def alreadyRunningServerMsg (pid : Option String) : String :=
  "Evennia Server is already running as process " ++ pid.getD "" ++ ". Not restarted."

def alreadyRunningPortalMsg (pid : Option String) : String :=
  "Evennia Portal is already running as process " ++ pid.getD "" ++ ". Not restarted."

/-- The server_argv list built in main; server_log and server_py stand for
settings.SERVER_LOG_FILE and the server.py path. -/
def server_argv_base (server_log server_py : String) : List String :=
  [TWISTED_BINARY, "--nodaemon", "--logfile=" ++ server_log,
    "--pidfile=" ++ SERVER_PIDFILE, "--python=" ++ server_py]

/-- The portal_argv list built in main. -/
def portal_argv_base (portal_log portal_py : String) : List String :=
  [TWISTED_BINARY, "--logfile=" ++ portal_log,
    "--pidfile=" ++ PORTAL_PIDFILE, "--python=" ++ portal_py]

/-- set_restart_mode with the writability of the filesystem made explicit:
the open/write pair raises IOError when the filesystem is unwritable, and
the source contains no handler for it anywhere on the call path. -/
def set_restart_modeE (writable : Bool) (fs : FS) (restart_file : String)
    (flag : Bool) : Except String FS :=
  if writable then .ok (set_restart_mode fs restart_file flag) else .error "IOError"

/-- Result of one startup section of main: the argv to launch (none when the
launch is skipped), the filesystem after the section, and the observable
effects in order. -/
structure PhaseOut where
  argv : Option (List String)
  fs : FS
  effects : List Effect

/-- Embeds the Server section of main: read the pid file; when its value is
truthy and the noserver option is unset, print the already-running message
and force noserver; when noserver holds, drop server_argv; otherwise write
the server restart flag to True, adjust argv for the iserver option
(del server_argv[2] removes the logfile argument), print the start message
and rotate the server logfile. -/
def server_phase (writable : Bool) (http_log server_log server_py : String)
    (fs : FS) (noserver iserver : Bool) : Except String PhaseOut :=
  let pid := get_pid fs SERVER_PIDFILE
  let already := py_truthy pid && !noserver
  let msgs : List Effect :=
    if already then [Effect.printed (alreadyRunningServerMsg pid)] else []
  let noserver1 := already || noserver
  if noserver1 then .ok ⟨none, fs, msgs⟩
  else
    match set_restart_modeE writable fs SERVER_RESTART true with
    | .error e => .error e
    | .ok fs1 =>
      let argv0 := server_argv_base server_log server_py
      let argv := if iserver then argv0.eraseIdx 2 else argv0
      let startMsg := if iserver then startingServerStdoutMsg else startingServerLogMsg
      let fs2 := cycle_logfile http_log fs1 server_log
      .ok ⟨some argv, fs2,
        msgs ++ [Effect.wroteFlag SERVER_RESTART true, Effect.printed startMsg,
          Effect.rotatedLog server_log]⟩

/-- Embeds the Portal section of main: read the pid file; when its value is
truthy and the noportal option is unset, print the already-running message
and force noportal; when noportal holds, drop portal_argv; otherwise with
the iportal option replace portal_argv[1] by a nodaemon argument and write
the portal restart flag to True, and without it write the flag to False;
in both cases print the start message and rotate the portal logfile. -/
def portal_phase (writable : Bool) (http_log portal_log portal_py : String)
    (fs : FS) (noportal iportal : Bool) : Except String PhaseOut :=
  let pid := get_pid fs PORTAL_PIDFILE
  let already := py_truthy pid && !noportal
  let msgs : List Effect :=
    if already then [Effect.printed (alreadyRunningPortalMsg pid)] else []
  let noportal1 := already || noportal
  if noportal1 then .ok ⟨none, fs, msgs⟩
  else if iportal then
    match set_restart_modeE writable fs PORTAL_RESTART true with
    | .error e => .error e
    | .ok fs1 =>
      let argv := (portal_argv_base portal_log portal_py).set 1 "--nodaemon"
      let fs2 := cycle_logfile http_log fs1 portal_log
      .ok ⟨some argv, fs2,
        msgs ++ [Effect.wroteFlag PORTAL_RESTART true,
          Effect.printed startingPortalNonDaemonMsg, Effect.rotatedLog portal_log]⟩
  else
    match set_restart_modeE writable fs PORTAL_RESTART false with
    | .error e => .error e
    | .ok fs1 =>
      let fs2 := cycle_logfile http_log fs1 portal_log
      .ok ⟨some (portal_argv_base portal_log portal_py), fs2,
        msgs ++ [Effect.wroteFlag PORTAL_RESTART false,
          Effect.printed startingPortalDaemonMsg, Effect.rotatedLog portal_log]⟩

/-- Result of the two startup sections of main, just before start_services
is called. -/
structure MainOut where
  server_argv : Option (List String)
  portal_argv : Option (List String)
  fs : FS
  effects : List Effect

/-- Embeds the body of main after argument parsing: the Server section, then
the Portal section on the resulting filesystem.  An IOError raised in either
section propagates out of main unhandled, so nothing after it runs. -/
def main_phases (writable : Bool) (http_log server_log server_py portal_log portal_py : String)
    (fs : FS) (noserver noportal iserver iportal : Bool) : Except String MainOut :=
  match server_phase writable http_log server_log server_py fs noserver iserver with
  | .error e => .error e
  | .ok s =>
    match portal_phase writable http_log portal_log portal_py s.fs noportal iportal with
    | .error e => .error e
    | .ok p => .ok ⟨s.argv, p.argv, p.fs, s.effects ++ p.effects⟩

/-! ## The argument check of main -/

/-- Python sys.exit() with no argument raises SystemExit(None), which makes
the interpreter exit with status 0. -/
def sys_exit_no_arg_code : Nat := 0

/-- Outcome of the positional-argument check in main. -/
inductive CliOutcome
  | usageExit (printedHelp : Bool) (exitCode : Nat)
  | proceed
deriving DecidableEq

/-- Embeds the check at the top of main on the positional arguments left by
the option parser: when args is empty or args[0] differs from the word
start, print the help text and call sys.exit() with no argument; otherwise
fall through to the startup sections. -/
def main_cli (args : List String) : CliOutcome :=
  match args with
  | [] => .usageExit true sys_exit_no_arg_code
  | a :: _ => if a = "start" then .proceed else .usageExit true sys_exit_no_arg_code

/-! ## Concrete filesystems used in closed statements -/

/-- Both restart flags read True: Server monitored and Portal monitored in
interactive mode. -/
def fsBothMonitored : FS :=
  fun q => if q = SERVER_RESTART then some "True"
    else if q = PORTAL_RESTART then some "True" else none

/-- A flag file reading True at every path. -/
def fsAllTrue : FS := fun _ => some "True"

/-- Only an http log file exists. -/
def fsHttpOnly : FS := fun q => if q = "http.log" then some "H" else none

/-- A server pid file exists but is empty. -/
def fsPidEmpty : FS := fun q => if q = SERVER_PIDFILE then some "" else none

/-- Pid files with non-empty contents for both processes. -/
def fsPidsPresent : FS :=
  fun q => if q = SERVER_PIDFILE then some "4711"
    else if q = PORTAL_PIDFILE then some "4712" else none

/-- Only the server restart flag reads True; the portal flag file is absent,
as in the normal daemon configuration of the Portal. -/
def fsServerOnly : FS :=
  fun q => if q = SERVER_RESTART then some "True" else none

/-- Only the server pid file is present, with non-empty contents. -/
def fsServerPidOnly : FS :=
  fun q => if q = SERVER_PIDFILE then some "4711" else none

/-- An a.log file with contents, a stale a.log.old, and an http log. -/
def fsLogs : FS :=
  fun q => if q = "a.log" then some "A"
    else if q = "a.log.old" then some "OLD"
    else if q = "http.log" then some "H" else none

/-! ## Helper lemmas -/

/-- No path equals its own .old sibling. -/
theorem ne_append_old (p : String) : p ≠ p ++ ".old" := by
  intro h
  have hl := congrArg String.length h
  rw [String.length_append] at hl
  have h4 : (".old" : String).length = 4 := rfl
  omega

/-- Renaming puts the source contents at the destination. -/
theorem FS.rename_dst (fs : FS) (src dst : String) :
    FS.rename fs src dst dst = fs src := by
  simp [FS.rename]

/-- Renaming clears the source path. -/
theorem FS.rename_src (fs : FS) (src dst : String) (h : src ≠ dst) :
    FS.rename fs src dst src = none := by
  simp [FS.rename, h]

/-- Renaming leaves unrelated paths unchanged. -/
theorem FS.rename_other (fs : FS) (src dst q : String) (h1 : q ≠ dst)
    (h2 : q ≠ src) : FS.rename fs src dst q = fs q := by
  simp [FS.rename, h1, h2]

/-- Removing a file leaves other paths unchanged. -/
theorem FS.remove_other (fs : FS) (p q : String) (h : q ≠ p) :
    FS.remove fs p q = fs q := by
  simp [FS.remove, h]

/-- One rotation block leaves every path other than the rotated file and its
.old sibling unchanged. -/
theorem rotate_once_frame (fs : FS) (p q : String) (h1 : q ≠ p)
    (h2 : q ≠ p ++ ".old") : rotate_once fs p q = fs q := by
  simp only [rotate_once]
  split
  · rw [FS.rename_other _ _ _ _ h2 h1]
    split
    · exact FS.remove_other _ _ _ h2
    · rfl
  · rfl

/-- One rotation block is the identity when the rotated file is absent. -/
theorem rotate_once_absent (fs : FS) (p : String) (h : fs p = none) :
    rotate_once fs p = fs := by
  simp only [rotate_once, os_path_exists, h]
  rfl

/-- One rotation block on a present file removes it and moves its contents
to the .old sibling. -/
theorem rotate_once_present (fs : FS) (p c : String) (h : fs p = some c) :
    rotate_once fs p p = none ∧ rotate_once fs p (p ++ ".old") = some c := by
  have hne : p ≠ p ++ ".old" := ne_append_old p
  have hex : os_path_exists fs p = true := by simp [os_path_exists, h]
  simp only [rotate_once, hex, if_true]
  constructor
  · exact FS.rename_src _ _ _ hne
  · rw [FS.rename_dst]
    split
    · rw [FS.remove_other _ _ _ hne]
      exact h
    · exact h

/-! ## Claim theorems -/

/-- C7: for every filesystem, flag file and boolean b, writing the
restart-intent flag with set_restart_mode and reading it back with
get_restart_mode returns b (the flag is persisted as the literal textual
boolean), and reading a flag whose file is absent returns false. -/
theorem restart_flag_roundtrip (fs : FS) (file : String) (b : Bool) :
    get_restart_mode (set_restart_mode fs file b) file = b ∧
    (fs file = none → get_restart_mode fs file = false) := by
  constructor
  · cases b <;>
      simp [get_restart_mode, set_restart_mode, FS.write, str_py, os_path_exists]
  · intro h
    simp [get_restart_mode, os_path_exists, h]

/-- Witness for C7 at the server flag file over the empty filesystem. -/
theorem restart_flag_roundtrip_witness :
    get_restart_mode (set_restart_mode fsEmpty SERVER_RESTART true) SERVER_RESTART = true ∧
    get_restart_mode fsEmpty SERVER_RESTART = false :=
  ⟨(restart_flag_roundtrip fsEmpty SERVER_RESTART true).1,
    (restart_flag_roundtrip fsEmpty SERVER_RESTART true).2 rfl⟩

/-- C5 counterexample: cycle_logfile on an absent path is not a no-op and
touches a file other than the path and its .old sibling: with a.log absent
and http.log present, the call moves http.log to http.log.old. -/
theorem cycle_logfile_rotates_http_log :
    fsHttpOnly "a.log" = none ∧ fsHttpOnly "http.log" = some "H" ∧
    cycle_logfile "http.log" fsHttpOnly "a.log" "http.log" = none ∧
    cycle_logfile "http.log" fsHttpOnly "a.log" ("http.log" ++ ".old") = some "H" := by
  decide

/-- C5 amended: cycle_logfile rotates the given path to its .old sibling as
the claim states, but it additionally always applies the same rotation to
the configured http log file.  In order: (1) no path outside the four names
path, path.old, http, http.old is created, removed or renamed; (2) when the
path is absent, both the path and its .old sibling are untouched; (3) when
the path is present it ends up cleared with its old contents at the .old
sibling; (4) when the http log is absent, the http pair is untouched;
(5) when the http log is present it is always rotated the same way, whether
or not the path exists.  The per-pair clauses assume the path pair and the
http pair name four distinct files, without which the two rotations
interfere and the same-rotation reading is not well posed. -/
theorem cycle_logfile_effect (http path : String) (fs : FS) :
    (∀ q, q ≠ path → q ≠ path ++ ".old" → q ≠ http → q ≠ http ++ ".old" →
      cycle_logfile http fs path q = fs q)
    ∧ (fs path = none → path ≠ http → path ≠ http ++ ".old" →
      path ++ ".old" ≠ http → path ++ ".old" ≠ http ++ ".old" →
      cycle_logfile http fs path path = none ∧
      cycle_logfile http fs path (path ++ ".old") = fs (path ++ ".old"))
    ∧ (∀ c, fs path = some c → path ≠ http → path ≠ http ++ ".old" →
      path ++ ".old" ≠ http → path ++ ".old" ≠ http ++ ".old" →
      cycle_logfile http fs path path = none ∧
      cycle_logfile http fs path (path ++ ".old") = some c)
    ∧ (fs http = none → http ≠ path → http ≠ path ++ ".old" →
      http ++ ".old" ≠ path → http ++ ".old" ≠ path ++ ".old" →
      cycle_logfile http fs path http = none ∧
      cycle_logfile http fs path (http ++ ".old") = fs (http ++ ".old"))
    ∧ (∀ c, fs http = some c → http ≠ path → http ≠ path ++ ".old" →
      http ++ ".old" ≠ path → http ++ ".old" ≠ path ++ ".old" →
      cycle_logfile http fs path http = none ∧
      cycle_logfile http fs path (http ++ ".old") = some c) := by
  refine ⟨?_, ?_, ?_, ?_, ?_⟩
  · intro q h1 h2 h3 h4
    unfold cycle_logfile
    rw [rotate_once_frame _ _ _ h3 h4, rotate_once_frame _ _ _ h1 h2]
  · intro h h1 h2 h3 h4
    unfold cycle_logfile
    rw [rotate_once_absent fs path h]
    constructor
    · rw [rotate_once_frame _ _ _ h1 h2]
      exact h
    · exact rotate_once_frame _ _ _ h3 h4
  · intro c h h1 h2 h3 h4
    unfold cycle_logfile
    obtain ⟨ha, hb⟩ := rotate_once_present fs path c h
    constructor
    · rw [rotate_once_frame _ _ _ h1 h2]
      exact ha
    · rw [rotate_once_frame _ _ _ h3 h4]
      exact hb
  · intro h h1 h2 h3 h4
    unfold cycle_logfile
    have hfs1 : rotate_once fs path http = none := by
      rw [rotate_once_frame _ _ _ h1 h2]
      exact h
    rw [rotate_once_absent _ _ hfs1]
    exact ⟨hfs1, rotate_once_frame _ _ _ h3 h4⟩
  · intro c h h1 h2 h3 h4
    unfold cycle_logfile
    have hfs1 : rotate_once fs path http = some c := by
      rw [rotate_once_frame _ _ _ h1 h2]
      exact h
    exact rotate_once_present _ _ _ hfs1

/-- Witness for the amended C5 at a filesystem holding a.log, a stale
a.log.old and http.log: the path pair is rotated (old sibling overwritten
with the old contents) and the http pair is rotated in the same call. -/
theorem cycle_logfile_effect_witness :
    (cycle_logfile "http.log" fsLogs "a.log" "a.log" = none ∧
      cycle_logfile "http.log" fsLogs "a.log" ("a.log" ++ ".old") = some "A") ∧
    (cycle_logfile "http.log" fsLogs "a.log" "http.log" = none ∧
      cycle_logfile "http.log" fsLogs "a.log" ("http.log" ++ ".old") = some "H") :=
  ⟨(cycle_logfile_effect "http.log" "a.log" fsLogs).2.2.1 "A" rfl
      (by decide) (by decide) (by decide) (by decide),
    (cycle_logfile_effect "http.log" "a.log" fsLogs).2.2.2.2 "H" rfl
      (by decide) (by decide) (by decide) (by decide)⟩

/-- C9 counterexample: the invocation with positional arguments starting
with the word stop prints the usage text and exits through sys.exit() with
exit status 0, not a non-zero status. -/
theorem usage_exit_code_zero :
    main_cli ["stop"] = CliOutcome.usageExit true 0 := by
  decide

/-- C9 amended: every invocation whose positional arguments do not begin
with the subcommand start prints the usage text and exits with status 0
(sys.exit with no argument), launching no process. -/
theorem non_start_args_usage_exit (args : List String)
    (h : ∀ a l, args = a :: l → a ≠ "start") :
    main_cli args = CliOutcome.usageExit true 0 := by
  cases args with
  | nil => rfl
  | cons a l =>
    have ha := h a l rfl
    simp [main_cli, ha, sys_exit_no_arg_code]

/-- Witness for the amended C9 at the empty argument list. -/
theorem non_start_args_usage_exit_witness :
    main_cli [] = CliOutcome.usageExit true 0 :=
  non_start_args_usage_exit [] (by intro a l hh; cases hh)

/-- C4: when Popen raises (missing executable, permission error), the
waiter body never assigns rc, so the unconditional queue.put raises
UnboundLocalError inside the thread: no completion event of any kind, in
particular no synthetic non-zero one, reaches the queue. -/
theorem launch_failure_enqueues_nothing :
    server_waiter none = WaiterOutcome.unboundLocal ∧
    portal_waiter none = WaiterOutcome.unboundLocal ∧
    (∀ rc : Int, server_waiter none ≠ WaiterOutcome.enqueued "server_stopped" rc) ∧
    (∀ rc : Int, portal_waiter none ≠ WaiterOutcome.enqueued "portal_stopped" rc) := by
  refine ⟨rfl, rfl, ?_, ?_⟩ <;> intro rc h <;> exact WaiterOutcome.noConfusion h

/-- Auxiliary string facts used to evaluate the loop conditions. -/
theorem portal_msg_ne_server_msg :
    (("portal_stopped" : String) == "server_stopped") = false := by decide

theorem server_msg_ne_portal_msg :
    (("server_stopped" : String) == "portal_stopped") = false := by decide

/-- The reload loop has executed its break statement by the end of a trace
exactly when some event of the trace fails both relaunch tests. -/
theorem run_loop_returned_iff (s p : Bool) (trace : List (FS × String × Int)) :
    (run_loop s p trace).returned = true ↔
      ∃ e ∈ trace, loop_step e.1 e.2.1 e.2.2 = StepAction.breakLoop := by
  induction trace with
  | nil => simp [run_loop]
  | cons e rest ih =>
    obtain ⟨fs, m, rc⟩ := e
    cases h : loop_step fs m rc with
    | relaunchServer => simp [run_loop, h, ih]
    | relaunchPortal => simp [run_loop, h, ih]
    | breakLoop => simp [run_loop, h]

/-- C2: for every filesystem snapshot (hence for every stored value of the
restart-intent flag, including True) and every completion event with a
non-zero exit code, the loop performs zero relaunches of either process, the
process of the event leaves the active set, and the loop breaks; the flag
file does not influence the outcome because the conjunction short-circuits
on int(rc) == 0. -/
theorem nonzero_exit_never_relaunches (fs : FS) (m : String) (rc : Int)
    (rest : List (FS × String × Int)) (s p : Bool) (h : rc ≠ 0) :
    run_loop s p ((fs, m, rc) :: rest) =
      ⟨s && !(m == "server_stopped"), p && !(m == "portal_stopped"), 0, 0, [], true⟩ := by
  have hrc : (rc == 0) = false := by simp [h]
  have hstep : loop_step fs m rc = StepAction.breakLoop := by
    simp [loop_step, hrc]
  simp [run_loop, hstep]

/-- Witness for C2: flag files all read True and the server exits with code
1; no relaunch happens and the loop returns. -/
theorem nonzero_exit_never_relaunches_witness :
    run_loop true false [(fsAllTrue, "server_stopped", 1)] =
      ⟨true && !(("server_stopped" : String) == "server_stopped"),
        false && !(("server_stopped" : String) == "portal_stopped"), 0, 0, [], true⟩ :=
  nonzero_exit_never_relaunches fsAllTrue "server_stopped" 1 [] true false (by decide)

/-- C3: a completion event with exit code zero whose own restart flag reads
True at that moment adds exactly one relaunch of that same process (one
printed restarting message and one freshly spawned waiter thread, with no
log rotation and no pid or flag write among the added effects), keeps both
active flags unchanged (no permanent removal), and continues the loop.  The
two implications are independent: each needs only the flag of its own
process, whatever the other flag file holds. -/
theorem clean_exit_with_intent_relaunches (fs : FS)
    (rest : List (FS × String × Int)) (s p : Bool) :
    (get_restart_mode fs SERVER_RESTART = true →
      run_loop s p ((fs, "server_stopped", 0) :: rest) =
        ⟨(run_loop s p rest).activeServer, (run_loop s p rest).activePortal,
          (run_loop s p rest).serverRelaunches + 1, (run_loop s p rest).portalRelaunches,
          Effect.printed serverRestartMsg :: Effect.spawned "server_waiter" ::
            (run_loop s p rest).effects,
          (run_loop s p rest).returned⟩) ∧
    (get_restart_mode fs PORTAL_RESTART = true →
      run_loop s p ((fs, "portal_stopped", 0) :: rest) =
        ⟨(run_loop s p rest).activeServer, (run_loop s p rest).activePortal,
          (run_loop s p rest).serverRelaunches, (run_loop s p rest).portalRelaunches + 1,
          Effect.printed portalRestartMsg :: Effect.spawned "portal_waiter" ::
            (run_loop s p rest).effects,
          (run_loop s p rest).returned⟩) := by
  constructor
  · intro hS
    have hs : loop_step fs "server_stopped" 0 = StepAction.relaunchServer := by
      simp [loop_step, hS]
    simp [run_loop, hs]
  · intro hP
    have hp : loop_step fs "portal_stopped" 0 = StepAction.relaunchPortal := by
      simp [loop_step, hP, portal_msg_ne_server_msg]
    simp [run_loop, hp]

/-- Witness for C3.  First part: the normal daemon configuration, where only
the server flag reads True and the portal flag file is absent; a clean
server exit relaunches the Server.  Second part: an interactive portal with
its flag True is relaunched after a clean exit. -/
theorem clean_exit_with_intent_relaunches_witness :
    run_loop true false [(fsServerOnly, "server_stopped", 0)] =
      ⟨(run_loop true false []).activeServer, (run_loop true false []).activePortal,
        (run_loop true false []).serverRelaunches + 1,
        (run_loop true false []).portalRelaunches,
        Effect.printed serverRestartMsg :: Effect.spawned "server_waiter" ::
          (run_loop true false []).effects,
        (run_loop true false []).returned⟩ ∧
    run_loop true true [(fsBothMonitored, "portal_stopped", 0)] =
      ⟨(run_loop true true []).activeServer, (run_loop true true []).activePortal,
        (run_loop true true []).serverRelaunches,
        (run_loop true true []).portalRelaunches + 1,
        Effect.printed portalRestartMsg :: Effect.spawned "portal_waiter" ::
          (run_loop true true []).effects,
        (run_loop true true []).returned⟩ :=
  ⟨(clean_exit_with_intent_relaunches fsServerOnly [] true false).1 (by decide),
    (clean_exit_with_intent_relaunches fsBothMonitored [] true true).2 (by decide)⟩

/-- C1 counterexample: with the Server and the Portal both monitored, a
single crash event for the Server makes the loop break and return while the
Portal is still active (no completion event for it was ever consumed), so
the loop returns although the active monitored set is non-empty. -/
theorem loop_returns_while_portal_active :
    get_restart_mode fsBothMonitored PORTAL_RESTART = true ∧
    start_services fsBothMonitored true true [(fsBothMonitored, "server_stopped", 1)] =
      StartOutcome.looped ⟨false, true, 0, 0, [], true⟩ := by
  decide

/-- C1 amended: start_services returns before the loop exactly when the
Portal is enabled with its restart flag not reading True (detached daemon)
and the Server is disabled; in every other configuration the loop is
entered, and it returns exactly when some consumed event fails the relaunch
tests, regardless of how many monitored processes are still active (in
particular, with zero monitored processes and hence an event-free trace it
never returns and blocks forever). -/
theorem start_services_return_characterization (fs : FS) (s p : Bool)
    (trace : List (FS × String × Int)) :
    (start_services fs s p trace = StartOutcome.earlyReturn ↔
      (p = true ∧ get_restart_mode fs PORTAL_RESTART = false ∧ s = false)) ∧
    (∀ r, start_services fs s p trace = StartOutcome.looped r →
      (r.returned = true ↔
        ∃ e ∈ trace, loop_step e.1 e.2.1 e.2.2 = StepAction.breakLoop)) := by
  have hb : (p && !(get_restart_mode fs PORTAL_RESTART) && !s) = true ↔
      (p = true ∧ get_restart_mode fs PORTAL_RESTART = false ∧ s = false) := by
    simp [Bool.and_eq_true, Bool.not_eq_true', and_assoc]
  constructor
  · unfold start_services
    by_cases hc : (p && !(get_restart_mode fs PORTAL_RESTART) && !s) = true
    · simpa [hc] using hb.mp hc
    · rw [if_neg hc]
      rw [hb] at hc
      simp [hc]
  · intro r hr
    unfold start_services at hr
    split at hr
    · cases hr
    · cases hr
      exact run_loop_returned_iff _ _ _

/-- Witness for the amended C1: with both processes disabled the loop is
entered with an empty monitored set and, the trace being necessarily empty,
it has not returned. -/
theorem start_services_return_characterization_witness :
    (run_loop false false []).returned = true ↔
      ∃ e ∈ ([] : List (FS × String × Int)),
        loop_step e.1 e.2.1 e.2.2 = StepAction.breakLoop :=
  (start_services_return_characterization fsEmpty false false []).2
    (run_loop false false []) rfl

/-- C8 counterexample: a pid record file that is present but empty does not
make the supervisor treat the process as already running: the Server section
of main proceeds with the full launch path (restart flag written, start
message printed, logfile rotated, argv produced) instead of skipping it. -/
theorem empty_pidfile_still_launches :
    os_path_exists fsPidEmpty SERVER_PIDFILE = true ∧
    server_phase true "http.log" "server.log" "server.py" fsPidEmpty false false =
      Except.ok ⟨some (server_argv_base "server.log" "server.py"),
        cycle_logfile "http.log" (set_restart_mode fsPidEmpty SERVER_RESTART true) "server.log",
        [Effect.wroteFlag SERVER_RESTART true, Effect.printed startingServerLogMsg,
          Effect.rotatedLog "server.log"]⟩ :=
  ⟨rfl, rfl⟩

/-- C8 amended: for a process the operator asked to start whose pid record
file is present with non-empty (truthy) contents, the supervisor skips the
launch, prints only the informational already-running message, and leaves
the filesystem entirely unchanged: no pid overwrite, no flag write, no log
rotation, and no signalling of the recorded pid. -/
theorem running_pid_skips_launch (w : Bool)
    (http slog spy plog ppy : String) (fs : FS) (iserver iportal : Bool)
    (ss sp : String) :
    (fs SERVER_PIDFILE = some ss → ss ≠ "" →
      server_phase w http slog spy fs false iserver =
        Except.ok ⟨none, fs, [Effect.printed (alreadyRunningServerMsg (some ss))]⟩) ∧
    (fs PORTAL_PIDFILE = some sp → sp ≠ "" →
      portal_phase w http plog ppy fs false iportal =
        Except.ok ⟨none, fs, [Effect.printed (alreadyRunningPortalMsg (some sp))]⟩) := by
  constructor
  · intro hS hSne
    have hSb : (ss == "") = false := by simp [hSne]
    simp [server_phase, get_pid, os_path_exists, hS, py_truthy, hSb]
  · intro hP hPne
    have hPb : (sp == "") = false := by simp [hPne]
    simp [portal_phase, get_pid, os_path_exists, hP, py_truthy, hPb]

/-- Witness for the amended C8.  First part: only the server pid file is
present (the scenario of the specification) and the Server launch alone is
skipped with a message, the filesystem untouched.  Second part: a portal pid
file skips the Portal launch the same way. -/
theorem running_pid_skips_launch_witness :
    server_phase true "http.log" "server.log" "server.py" fsServerPidOnly false false =
      Except.ok ⟨none, fsServerPidOnly,
        [Effect.printed (alreadyRunningServerMsg (some "4711"))]⟩ ∧
    portal_phase true "http.log" "portal.log" "portal.py" fsPidsPresent false false =
      Except.ok ⟨none, fsPidsPresent,
        [Effect.printed (alreadyRunningPortalMsg (some "4712"))]⟩ :=
  ⟨(running_pid_skips_launch true "http.log" "server.log" "server.py" "portal.log"
      "portal.py" fsServerPidOnly false false "4711" "4712").1 rfl (by decide),
    (running_pid_skips_launch true "http.log" "server.log" "server.py" "portal.log"
      "portal.py" fsPidsPresent false false "4711" "4712").2 rfl (by decide)⟩

/-- C10: a pid record file that exists with zero-length contents yields a
falsy get_pid value, and the Server section of main takes the normal launch
path: it writes the restart flag, prints the start message, rotates the
logfile and produces the launch argv. -/
theorem empty_pidfile_normal_launch (http slog spy : String) (fs : FS)
    (iserver : Bool) (h : fs SERVER_PIDFILE = some "") :
    py_truthy (get_pid fs SERVER_PIDFILE) = false ∧
    server_phase true http slog spy fs false iserver =
      Except.ok ⟨some (if iserver then (server_argv_base slog spy).eraseIdx 2
          else server_argv_base slog spy),
        cycle_logfile http (set_restart_mode fs SERVER_RESTART true) slog,
        [Effect.wroteFlag SERVER_RESTART true,
          Effect.printed (if iserver then startingServerStdoutMsg else startingServerLogMsg),
          Effect.rotatedLog slog]⟩ := by
  have h1 : py_truthy (get_pid fs SERVER_PIDFILE) = false := by
    simp [get_pid, os_path_exists, h, py_truthy]
  refine ⟨h1, ?_⟩
  simp [server_phase, h1, set_restart_modeE]

/-- Witness for C10: empty server.pid, iserver set; the launch proceeds. -/
theorem empty_pidfile_normal_launch_witness :
    py_truthy (get_pid fsPidEmpty SERVER_PIDFILE) = false ∧
    server_phase true "http.log" "server.log" "server.py" fsPidEmpty false true =
      Except.ok ⟨some (if true then (server_argv_base "server.log" "server.py").eraseIdx 2
          else server_argv_base "server.log" "server.py"),
        cycle_logfile "http.log" (set_restart_mode fsPidEmpty SERVER_RESTART true) "server.log",
        [Effect.wroteFlag SERVER_RESTART true,
          Effect.printed (if true then startingServerStdoutMsg else startingServerLogMsg),
          Effect.rotatedLog "server.log"]⟩ :=
  empty_pidfile_normal_launch "http.log" "server.log" "server.py" fsPidEmpty true rfl

/-- C6 counterexample: with an unwritable filesystem, the IOError raised by
the restart-flag write aborts the whole of main before any launch: the run
ends in the propagated error, not in a launched process without restart
capability. -/
theorem flag_write_failure_aborts :
    main_phases false "http.log" "server.log" "server.py" "portal.log" "portal.py"
      fsEmpty false false false false = Except.error "IOError" :=
  rfl

/-- C6 amended: when writing the restart-intent flag raises IOError, the
exception propagates uncaught out of main: the run aborts, the affected
process is not launched at all, and the later Portal section never runs. -/
theorem flag_write_failure_propagates (http slog spy plog ppy : String)
    (fs : FS) (iserver iportal noportal : Bool)
    (h : py_truthy (get_pid fs SERVER_PIDFILE) = false) :
    main_phases false http slog spy plog ppy fs false noportal iserver iportal =
      Except.error "IOError" := by
  simp [main_phases, server_phase, h, set_restart_modeE]

/-- Witness for the amended C6 over the empty filesystem. -/
theorem flag_write_failure_propagates_witness :
    main_phases false "h.log" "s.log" "s.py" "p.log" "p.py" fsEmpty false true true true =
      Except.error "IOError" :=
  flag_write_failure_propagates "h.log" "s.log" "s.py" "p.log" "p.py" fsEmpty
    true true true rfl
